import Mathlib

/-
Shallow embedding of the RINQ database connectivity layer.

Sources embedded:
  * crates/rdbc/src/lib.rs   — the driver contract (`Database` trait), the
    client façade (`DbConn`, `Tx`, `Stmt`, `ResultSet`) and the process-wide
    driver registry (`register` / `open`).
  * crates/sqlite/src/lib.rs — the sqlite driver (`SqliteDriver`).

Modelling conventions:
  * `rasi::syscall::Handle` values are identified by `Nat` ids; in the sqlite
    driver the erased payload behind a handle is made explicit as an inductive
    (`SqlitePayload`), since the driver dispatches on the concrete type.
  * `std::io::Error` is a kind plus a message (`IoError`).
  * Rust panics (`panic!`, `assert!` failure, `todo!`) are a distinct outcome
    constructor `Outcome.fatal`, separate from recoverable `Outcome.err`.
  * The façade's drive-to-completion helper `cancelable_would_block` loops on a
    driver `poll_*` operation until it reports ready and then yields the inner
    result; each driver operation is therefore modelled by its eventual
    outcome (a pure function of the handle), and the façade records which
    driver operations it performs in a `DriverCall` trace, so that claims
    about which contract calls happen (and in what order) are statable.
  * Calls into the external sqlite3 C library are modelled by an oracle record
    (`Sqlite3Oracle`) giving the return code / output of each C call; the
    repository code only branches on those return codes.
  * `RwLock` acquisition is modelled as succeeding (the poisoned-lock branch
    of `register`/`open` is a concurrency failure outside a sequential model).
-/

namespace Rinq

/-- Subset of `std::io::ErrorKind` used by the embedded code. -/
inductive ErrorKind where
  | notFound
  | interrupted
  | invalidInput
  | other
deriving DecidableEq, Repr

/-- `std::io::Error`: an error kind plus a message. -/
structure IoError where
  kind : ErrorKind
  msg : String
deriving DecidableEq, Repr

/-- `SqlValue` (crates/rdbc/src/lib.rs): the tagged union for bound parameters
and fetched column values.  `BigInt` carries the `i128` as an `Int`;
`Decimal` carries the `BigDecimal` by its textual form (the only thing the
embedded code ever computes from it is `value.to_string()`); `Binary` carries
the bytes as `List Nat`. -/
inductive SqlValue where
  | Bool (b : Bool)
  | Int (i : Int)
  | BigInt (i : Int)
  | Float (f : Float)
  | Decimal (text : String)
  | Binary (data : List Nat)
  | String (s : String)
  | Null

/-- `ColumnType` (crates/rdbc/src/lib.rs): per-column metadata. -/
structure ColumnType where
  database_type_name : String
  decimal_size : Option (Int × Int)
  length : Option Int
  name : String
  nullable : Option Bool

/-- The `Database` trait (crates/rdbc/src/lib.rs): every driver operation,
each modelled by its eventual outcome.  Handles are `Nat` ids. -/
structure Database where
  start_connect : String → Except IoError Nat
  poll_connect : Nat → Except IoError Unit
  begin : Nat → Except IoError Nat
  rollback : Nat → Except IoError Unit
  commit : Nat → Except IoError Unit
  start_prepare : Nat → String → Except IoError Nat
  poll_prepare : Nat → Except IoError Unit
  start_query : Nat → List SqlValue → Except IoError Nat
  poll_next : Nat → Except IoError Bool
  poll_value : Nat → Nat → Except IoError SqlValue
  start_exec : Nat → List SqlValue → Except IoError Nat
  poll_exec : Nat → Except IoError (Int × Int)
  poll_cols : Nat → Except IoError (List String)
  poll_col_types : Nat → Except IoError (List ColumnType)

/-- One driver-contract call performed by the façade (used to record, as a
trace, which operations of the `Database` trait an API call invokes). -/
inductive DriverCall where
  | start_connect (source : String)
  | poll_connect (h : Nat)
  | begin (conn : Nat)
  | rollback (tx : Nat)
  | commit (tx : Nat)
  | start_prepare (h : Nat) (query : String)
  | poll_prepare (h : Nat)
  | start_query (stmt : Nat) (values : List SqlValue)
  | poll_next (rs : Nat)
  | poll_value (rs : Nat) (col : Nat)
  | start_exec (stmt : Nat) (values : List SqlValue)
  | poll_exec (h : Nat)
  | poll_cols (rs : Nat)
  | poll_col_types (rs : Nat)

/-- `DbConn` (crates/rdbc/src/lib.rs): a connection handle plus the shared
driver instance. -/
structure DbConn where
  conn : Nat
  database : Database

/-- `Tx` (crates/rdbc/src/lib.rs). -/
structure Tx where
  tx_handle : Nat
  database : Database

/-- `Stmt` (crates/rdbc/src/lib.rs). -/
structure Stmt where
  stmt_handle : Nat
  database : Database

/-- `ResultSet` (crates/rdbc/src/lib.rs). -/
structure ResultSet where
  result_set_handle : Nat
  database : Database

/-- `DbConn::prepare` (crates/rdbc/src/lib.rs): `start_prepare`, then drive
`poll_prepare` to completion, then wrap the statement handle. -/
def DbConn.prepare (c : DbConn) (query : String) :
    Except IoError Stmt × List DriverCall :=
  match c.database.start_prepare c.conn query with
  | .error e => (.error e, [.start_prepare c.conn query])
  | .ok stmt_handle =>
    match c.database.poll_prepare stmt_handle with
    | .error e =>
      (.error e, [.start_prepare c.conn query, .poll_prepare stmt_handle])
    | .ok _ =>
      (.ok ⟨stmt_handle, c.database⟩,
        [.start_prepare c.conn query, .poll_prepare stmt_handle])

/-- `Stmt::query` (crates/rdbc/src/lib.rs): `start_query` only; on success the
returned `ResultSet` wraps the handle, with no poll performed. -/
def Stmt.query (s : Stmt) (values : List SqlValue) :
    Except IoError ResultSet × List DriverCall :=
  match s.database.start_query s.stmt_handle values with
  | .error e => (.error e, [.start_query s.stmt_handle values])
  | .ok result_set_handle =>
    (.ok ⟨result_set_handle, s.database⟩, [.start_query s.stmt_handle values])

/-- `Stmt::exec` (crates/rdbc/src/lib.rs): `start_exec`, then drive
`poll_exec` to completion. -/
def Stmt.exec (s : Stmt) (values : List SqlValue) :
    Except IoError (Int × Int) × List DriverCall :=
  match s.database.start_exec s.stmt_handle values with
  | .error e => (.error e, [.start_exec s.stmt_handle values])
  | .ok result_handle =>
    match s.database.poll_exec result_handle with
    | .error e =>
      (.error e, [.start_exec s.stmt_handle values, .poll_exec result_handle])
    | .ok pair =>
      (.ok pair, [.start_exec s.stmt_handle values, .poll_exec result_handle])

/-- `ResultSet::get` (crates/rdbc/src/lib.rs): drive `poll_value` to
completion for the given zero-based column number. -/
def ResultSet.get (rs : ResultSet) (col : Nat) : Except IoError SqlValue :=
  rs.database.poll_value rs.result_set_handle col

/-- The `find_map` scan inside `ResultSet::get_by_col_name`: the zero-based
offset of the first descriptor whose `name` equals `col_name`. -/
def find_offset (col_name : String) : List ColumnType → Option Nat
  | [] => none
  | col :: rest =>
    if col.name = col_name then some 0
    else (find_offset col_name rest).map (· + 1)

/-- `ResultSet::get_by_col_name` (crates/rdbc/src/lib.rs): resolve the column
name against the supplied descriptor list, then delegate to `get`; an
unmatched name is a `NotFound` error. -/
def ResultSet.get_by_col_name (rs : ResultSet) (col_name : String)
    (col_types : List ColumnType) : Except IoError SqlValue :=
  match find_offset col_name col_types with
  | some offset => rs.get offset
  | none =>
    .error ⟨.notFound, "Unknown column name or alias: " ++ col_name⟩

/-- The global driver registry (`GlobalRegister.drivers`): a map from driver
name to shared driver instance, modelled as an association list with
first-match lookup. -/
abbrev Registry := List (String × Database)

/-- `HashMap::get` on the registry. -/
def hm_get (drivers : Registry) (k : String) : Option Database :=
  match drivers with
  | [] => none
  | (k2, v) :: rest => if k2 = k then some v else hm_get rest k

/-- Outcome of an operation that may also terminate the process:
`fatal` models a Rust panic (`panic!`, a failed `assert!`, or `todo!`). -/
inductive Outcome (α : Type) where
  | ok (a : α)
  | err (e : IoError)
  | fatal (msg : String)

/-- `register` (crates/rdbc/src/lib.rs): `HashMap::insert` the new driver
(returning the previous entry), `assert!` that no previous entry existed
(panicking with `"register driver twice: .."` otherwise), and then — as
written in the source — fall through to `todo!()`, which panics with
`"not yet implemented"`.  The function as written never returns `Ok(())`. -/
def register (drivers : Registry) (driver_name : String) (database : Database) :
    Outcome Unit × Registry :=
  let prev := hm_get drivers driver_name
  let drivers2 :=
    (driver_name, database) :: drivers.filter (fun p => p.fst != driver_name)
  match prev with
  | some _ => (.fatal ("register driver twice: " ++ driver_name), drivers2)
  | none => (.fatal "not yet implemented", drivers2)

/-- `open` (crates/rdbc/src/lib.rs): look the driver up by name; unknown name
is a `NotFound` error with no contract call performed; otherwise
`start_connect`, then drive `poll_connect` to completion, then wrap the
connection handle together with the driver instance. -/
def openDb (drivers : Registry) (driver_name source_name : String) :
    Except IoError DbConn × List DriverCall :=
  match hm_get drivers driver_name with
  | some database =>
    match database.start_connect source_name with
    | .error e => (.error e, [.start_connect source_name])
    | .ok conn =>
      match database.poll_connect conn with
      | .error e =>
        (.error e, [.start_connect source_name, .poll_connect conn])
      | .ok _ =>
        (.ok ⟨conn, database⟩,
          [.start_connect source_name, .poll_connect conn])
  | none =>
    (.error ⟨.notFound, "Unknown driver: " ++ driver_name⟩, [])

end Rinq

namespace Sqlite

open Rinq

/-- `SQLITE_OK` return code. -/
def SQLITE_OK : Int := 0

/-- The concrete payload behind a type-erased `Handle`, as the sqlite driver
(crates/sqlite/src/lib.rs) sees it after a checked downcast.  `conn` and `tx`
carry the raw `sqlite3*` pointer of their shared `Sqlite3Handle` (as a `Nat`
id); `stmt` carries the raw `sqlite3_stmt*` plus that shared connection
pointer; `resultSet` carries the raw `sqlite3_stmt*`; `other` stands for a
handle of any other concrete type (every downcast fails on it). -/
inductive SqlitePayload where
  | conn (c_handle : Nat)
  | tx (c_handle : Nat)
  | stmt (c_stmt : Nat) (c_handle : Nat)
  | resultSet (c_stmt : Nat)
  | other
deriving DecidableEq, Repr

/-- Oracle for the external sqlite3 C library: the return code (and, for
`sqlite3_prepare_v2`, the produced statement pointer) of each C call the
driver makes, and the `io::Error` that `to_io_error` reads off a connection
via `sqlite3_errcode`/`sqlite3_errmsg`.  The repository code only branches on
these values; everything else about the C library is external. -/
structure Sqlite3Oracle where
  bind_int_rc : Nat → Nat → Int → Int
  bind_int64_rc : Nat → Nat → Int → Int
  bind_double_rc : Nat → Nat → Float → Int
  bind_text_rc : Nat → Nat → String → Int
  bind_blob_rc : Nat → Nat → List Nat → Int
  bind_null_rc : Nat → Nat → Int
  prepare_rc : Nat → String → Int
  prepare_out : Nat → String → Nat
  err_of : Nat → IoError

/-- Whether a string contains a NUL byte, which makes `CString::new` fail. -/
def has_nul (s : String) : Bool :=
  s.data.any (fun c => c == Char.ofNat 0)

/-- The `io::Error` that `CString::new(..)?` propagates on a NUL byte
(`NulError` converted to an `io::Error` of kind `InvalidInput`; the byte
position carried by the Rust error is not modelled). -/
def nul_error : IoError :=
  ⟨.invalidInput, "data provided contains a nul byte"⟩

/-- One iteration of the loop in `SqliteDriver::bind_values`
(crates/sqlite/src/lib.rs): for the value at 1-based parameter `offset`,
either the `io::Error` from a failed `CString::new` (`String`, `BigInt` and
`Decimal` are bound through their textual form) or the return code of the
`sqlite3_bind_*` call. -/
def bind_value (o : Sqlite3Oracle) (c_stmt offset : Nat) :
    SqlValue → Except IoError Int
  | .Bool b => .ok (o.bind_int_rc c_stmt offset (if b then 1 else 0))
  | .Int i => .ok (o.bind_int64_rc c_stmt offset i)
  | .BigInt i =>
    if has_nul (toString i) then .error nul_error
    else .ok (o.bind_text_rc c_stmt offset (toString i))
  | .Float f => .ok (o.bind_double_rc c_stmt offset f)
  | .Decimal text =>
    if has_nul text then .error nul_error
    else .ok (o.bind_text_rc c_stmt offset text)
  | .Binary data => .ok (o.bind_blob_rc c_stmt offset data)
  | .String s =>
    if has_nul s then .error nul_error
    else .ok (o.bind_text_rc c_stmt offset s)
  | .Null => .ok (o.bind_null_rc c_stmt offset)

/-- The loop of `SqliteDriver::bind_values` from 1-based parameter `offset`:
a `CString` failure propagates at once; a bind returning a code other than
`SQLITE_OK` becomes `to_io_error` of the connection (`c_handle`); otherwise
the next value is bound at `offset + 1`. -/
def bind_values_from (o : Sqlite3Oracle) (c_stmt c_handle : Nat) :
    Nat → List SqlValue → Except IoError Unit
  | _, [] => .ok ()
  | offset, v :: rest =>
    match bind_value o c_stmt offset v with
    | .error e => .error e
    | .ok rc =>
      if rc = SQLITE_OK then bind_values_from o c_stmt c_handle (offset + 1) rest
      else .error (o.err_of c_handle)

/-- `SqliteDriver::bind_values` (crates/sqlite/src/lib.rs): bind the values
positionally, the value at index `i` to parameter `i + 1`. -/
def bind_values (o : Sqlite3Oracle) (c_stmt c_handle : Nat)
    (values : List SqlValue) : Except IoError Unit :=
  bind_values_from o c_stmt c_handle 1 values

/-- `SqliteDriver::start_prepare` (crates/sqlite/src/lib.rs): downcast the
handle to `SqliteConn`, else to `SqliteTx` (its connection pointer and shared
`Sqlite3Handle` in either case), else panic; then `CString::new(query)?`,
then `sqlite3_prepare_v2`, wrapping the new statement with the shared
connection handle on success. -/
def SqliteDriver.start_prepare (o : Sqlite3Oracle) (conn_or_tx : SqlitePayload)
    (query : String) : Outcome SqlitePayload :=
  match conn_or_tx with
  | .conn c_handle => after_downcast c_handle
  | .tx c_handle => after_downcast c_handle
  | _ => .fatal "Expect sqlite connection or tx"
where
  after_downcast (c_handle : Nat) : Outcome SqlitePayload :=
    if has_nul query then .err nul_error
    else if o.prepare_rc c_handle query = SQLITE_OK then
      .ok (.stmt (o.prepare_out c_handle query) c_handle)
    else .err (o.err_of c_handle)

/-- `SqliteDriver::start_query` (crates/sqlite/src/lib.rs): downcast to
`SqliteStmt` (panic otherwise), `bind_values`, and on success wrap the raw
statement pointer in a `SqliteResultSet` handle. -/
def SqliteDriver.start_query (o : Sqlite3Oracle) (stmt : SqlitePayload)
    (values : List SqlValue) : Outcome SqlitePayload :=
  match stmt with
  | .stmt c_stmt c_handle =>
    match bind_values o c_stmt c_handle values with
    | .error e => .err e
    | .ok _ => .ok (.resultSet c_stmt)
  | _ => .fatal "Expect sqlite stmt"

/-- `SqliteDriver::start_exec` (crates/sqlite/src/lib.rs): downcast to
`SqliteStmt` (panic otherwise), `bind_values`, and then — as written in the
source — fall through to `todo!()`, which panics. -/
def SqliteDriver.start_exec (o : Sqlite3Oracle) (stmt : SqlitePayload)
    (values : List SqlValue) : Outcome SqlitePayload :=
  match stmt with
  | .stmt c_stmt c_handle =>
    match bind_values o c_stmt c_handle values with
    | .error e => .err e
    | .ok _ => .fatal "not yet implemented"
  | _ => .fatal "Expect sqlite stmt"

/-- `SqliteDriver::poll_next` (crates/sqlite/src/lib.rs): the body is
`todo!()` — it panics on every input. -/
def SqliteDriver.poll_next (result_set : SqlitePayload) : Outcome Bool :=
  .fatal "not yet implemented"

/-- `SqliteDriver::poll_value` (crates/sqlite/src/lib.rs): the body is
`todo!()` — it panics on every input, whatever the column number. -/
def SqliteDriver.poll_value (result_set : SqlitePayload) (col_num : Nat) :
    Outcome SqlValue :=
  .fatal "not yet implemented"

/-- Whether a value is one of the kinds that `bind_values` converts through
`CString::new` of its textual form (`String`, `BigInt`, `Decimal`) and that
textual form contains a NUL byte — exactly the condition under which
`bind_value` fails instead of reaching a `sqlite3_bind_*` call. -/
def textual_nul : Rinq.SqlValue → Bool
  | .BigInt i => has_nul (toString i)
  | .Decimal text => has_nul text
  | .String s => has_nul s
  | _ => false

end Sqlite

/-- A concrete driver instance, used to instantiate witnesses. -/
def trivDb : Rinq.Database where
  start_connect := fun _ => .ok 1
  poll_connect := fun _ => .ok ()
  begin := fun _ => .ok 2
  rollback := fun _ => .ok ()
  commit := fun _ => .ok ()
  start_prepare := fun _ _ => .ok 3
  poll_prepare := fun _ => .ok ()
  start_query := fun _ _ => .ok 4
  poll_next := fun _ => .ok true
  poll_value := fun _ col => .ok (.Int (Int.ofNat col))
  start_exec := fun _ _ => .ok 5
  poll_exec := fun _ => .ok (7, 1)
  poll_cols := fun _ => .ok ["id", "name"]
  poll_col_types := fun _ => .ok []

/-- A concrete sqlite3 oracle on which every C call reports `SQLITE_OK`,
used to instantiate witnesses. -/
def trivOracle : Sqlite.Sqlite3Oracle where
  bind_int_rc := fun _ _ _ => 0
  bind_int64_rc := fun _ _ _ => 0
  bind_double_rc := fun _ _ _ => 0
  bind_text_rc := fun _ _ _ => 0
  bind_blob_rc := fun _ _ _ => 0
  bind_null_rc := fun _ _ => 0
  prepare_rc := fun _ _ => 0
  prepare_out := fun _ _ => 10
  err_of := fun _ => ⟨.other, "sqlite3 error"⟩

/-- A column descriptor with only a name, used to instantiate witnesses. -/
def namedCol (n : String) : Rinq.ColumnType :=
  ⟨"TEXT", none, none, n, none⟩

/-- C1: the claim says `register` returns `Ok(())` on a fresh driver name and
is fatal exactly on a duplicate.  On the code, `register` never returns
`Ok(())`: on a fresh name it falls through to `todo!()` and panics with
"not yet implemented"; on a duplicate name the `assert!` panics with
"register driver twice: ..".  This theorem evaluates `register` at a
first-ever registration (the failing input) and at a duplicate one. -/
theorem register_always_panics :
    (Rinq.register [] "sqlite" trivDb).fst
      = Rinq.Outcome.fatal "not yet implemented" ∧
    (Rinq.register [("sqlite", trivDb)] "sqlite" trivDb).fst
      = Rinq.Outcome.fatal "register driver twice: sqlite" := by
  exact ⟨rfl, rfl⟩

/-- C3: `open` with an unregistered driver name returns the not-found error
and performs no driver-contract call at all (in particular neither
`start_connect` nor `poll_connect`); with a registered name it performs
`start_connect`, propagates its synchronous error without polling, otherwise
drives `poll_connect` to completion, propagates its error, and otherwise
returns a connection holding that driver's connection handle and driver
instance. -/
theorem open_registry_spec (drivers : Rinq.Registry) (dn sn : String) :
    (Rinq.hm_get drivers dn = none →
      Rinq.openDb drivers dn sn
        = (.error ⟨.notFound, "Unknown driver: " ++ dn⟩, [])) ∧
    (∀ db, Rinq.hm_get drivers dn = some db →
      (∀ e, db.start_connect sn = .error e →
        Rinq.openDb drivers dn sn = (.error e, [.start_connect sn])) ∧
      (∀ conn, db.start_connect sn = .ok conn →
        (∀ e, db.poll_connect conn = .error e →
          Rinq.openDb drivers dn sn
            = (.error e, [.start_connect sn, .poll_connect conn])) ∧
        (db.poll_connect conn = .ok () →
          Rinq.openDb drivers dn sn
            = (.ok ⟨conn, db⟩, [.start_connect sn, .poll_connect conn])))) := by
  constructor
  · intro h
    simp only [Rinq.openDb, h]
  · intro db hdb
    constructor
    · intro e he
      simp only [Rinq.openDb, hdb, he]
    · intro conn hc
      constructor
      · intro e he
        simp only [Rinq.openDb, hdb, hc, he]
      · intro hp
        simp only [Rinq.openDb, hdb, hc, hp]

/-- Witness for C3: on an empty registry, `open "nonexistent" "x"` is the
not-found error with an empty call trace. -/
theorem open_registry_spec_witness :
    Rinq.openDb [] "nonexistent" "x"
      = (.error ⟨.notFound, "Unknown driver: " ++ "nonexistent"⟩, []) :=
  (open_registry_spec [] "nonexistent" "x").1 rfl

/-- C5: `Stmt::query` performs exactly the one contract call `start_query`
(so no `poll_next`, `poll_value`, `poll_cols` or `poll_col_types` happens
eagerly), surfaces a synchronous `start_query` error as-is, and on success
returns a `ResultSet` wrapping the handle `start_query` produced, bound to
the same driver instance. -/
theorem stmt_query_lazy (s : Rinq.Stmt) (values : List Rinq.SqlValue) :
    (Rinq.Stmt.query s values).snd
      = [.start_query s.stmt_handle values] ∧
    (∀ e, s.database.start_query s.stmt_handle values = .error e →
      (Rinq.Stmt.query s values).fst = .error e) ∧
    (∀ h, s.database.start_query s.stmt_handle values = .ok h →
      (Rinq.Stmt.query s values).fst = .ok ⟨h, s.database⟩) := by
  refine ⟨?_, ?_, ?_⟩
  · cases hq : s.database.start_query s.stmt_handle values <;>
      simp only [Rinq.Stmt.query, hq]
  · intro e he
    simp only [Rinq.Stmt.query, he]
  · intro h hh
    simp only [Rinq.Stmt.query, hh]

/-- Witness for C5 at a concrete statement over `trivDb`. -/
theorem stmt_query_lazy_witness :
    (Rinq.Stmt.query ⟨3, trivDb⟩ []).fst = .ok ⟨4, trivDb⟩ :=
  (stmt_query_lazy ⟨3, trivDb⟩ []).2.2 4 rfl

/-- C6: `Stmt::exec` performs `start_exec` and, unless that fails
synchronously, then `poll_exec` on the returned handle — nothing else; a
synchronous `start_exec` error surfaces as-is with `poll_exec` never invoked,
and otherwise the driven `poll_exec` outcome (the
`(last_insert_id, rows_affected)` pair on success, its error otherwise) is
returned. -/
theorem stmt_exec_spec (s : Rinq.Stmt) (values : List Rinq.SqlValue) :
    (∀ e, s.database.start_exec s.stmt_handle values = .error e →
      Rinq.Stmt.exec s values
        = (.error e, [.start_exec s.stmt_handle values])) ∧
    (∀ h, s.database.start_exec s.stmt_handle values = .ok h →
      (Rinq.Stmt.exec s values).snd
        = [.start_exec s.stmt_handle values, .poll_exec h] ∧
      (Rinq.Stmt.exec s values).fst = s.database.poll_exec h) := by
  constructor
  · intro e he
    simp only [Rinq.Stmt.exec, he]
  · intro h hh
    cases hp : s.database.poll_exec h <;>
      simp [Rinq.Stmt.exec, hh, hp]

/-- Witness for C6 at a concrete statement over `trivDb`. -/
theorem stmt_exec_spec_witness :
    (Rinq.Stmt.exec ⟨3, trivDb⟩ []).snd
      = [.start_exec 3 [], .poll_exec 5] ∧
    (Rinq.Stmt.exec ⟨3, trivDb⟩ []).fst = trivDb.poll_exec 5 :=
  (stmt_exec_spec ⟨3, trivDb⟩ []).2 5 rfl

/-- C8: the claim says `poll_value` on an out-of-range column index returns
an error, never a crash.  The sqlite driver's `poll_value` is `todo!()`: it
panics (a crash) on every input — here evaluated at the claim's failing
input, column index 2 of a result set. -/
theorem sqlite_poll_value_unimplemented :
    Sqlite.SqliteDriver.poll_value (.resultSet 0) 2
      = .fatal "not yet implemented" := rfl

/-- If every descriptor in the list has a name other than `n`, the
`find_offset` scan finds nothing. -/
theorem find_offset_eq_none (n : String) (cts : List Rinq.ColumnType)
    (h : ∀ c, c ∈ cts → c.name ≠ n) : Rinq.find_offset n cts = none := by
  induction cts with
  | nil => rfl
  | cons c rest ih =>
    have hc : c.name ≠ n := h c (List.mem_cons_self c rest)
    simp [Rinq.find_offset, hc,
      ih (fun d hd => h d (List.mem_cons_of_mem c hd))]

/-- The `find_offset` scan returns exactly the position of the first
descriptor whose name is `n`. -/
theorem find_offset_eq_some (n : String) (cts : List Rinq.ColumnType) :
    ∀ (i : Nat) (c : Rinq.ColumnType),
      cts.get? i = some c → c.name = n →
      (∀ j c2, j < i → cts.get? j = some c2 → c2.name ≠ n) →
      Rinq.find_offset n cts = some i := by
  induction cts with
  | nil => intro i c hc _ _; simp at hc
  | cons d rest ih =>
    intro i c hc hn hfirst
    cases i with
    | zero =>
      have hd : d = c := Option.some.inj hc
      subst hd
      simp [Rinq.find_offset, hn]
    | succ i =>
      have hd : d.name ≠ n := hfirst 0 d (Nat.succ_pos i) rfl
      have hrec := ih i c hc hn
        (fun j c2 hj hg => hfirst (j + 1) c2 (Nat.succ_lt_succ hj) hg)
      simp [Rinq.find_offset, hd, hrec]

/-- C4: `get_by_col_name` returns the same value as `get i`, where `i` is the
zero-based position of the first descriptor in the supplied list whose name
equals the requested name (linear scan, first match wins); when no
descriptor's name matches, it returns the not-found error. -/
theorem get_by_col_name_first_match (rs : Rinq.ResultSet) (n : String)
    (cts : List Rinq.ColumnType) :
    (∀ i c, cts.get? i = some c → c.name = n →
      (∀ j c2, j < i → cts.get? j = some c2 → c2.name ≠ n) →
      Rinq.ResultSet.get_by_col_name rs n cts = Rinq.ResultSet.get rs i) ∧
    ((∀ c, c ∈ cts → c.name ≠ n) →
      Rinq.ResultSet.get_by_col_name rs n cts
        = .error ⟨.notFound, "Unknown column name or alias: " ++ n⟩) := by
  constructor
  · intro i c hc hn hfirst
    have h := find_offset_eq_some n cts i c hc hn hfirst
    simp [Rinq.ResultSet.get_by_col_name, h]
  · intro h
    have h2 := find_offset_eq_none n cts h
    simp [Rinq.ResultSet.get_by_col_name, h2]

/-- Witness for C4: with descriptors `[id, name]`, looking up "name"
delegates to `get 1`. -/
theorem get_by_col_name_first_match_witness :
    Rinq.ResultSet.get_by_col_name ⟨0, trivDb⟩ "name"
        [namedCol "id", namedCol "name"]
      = Rinq.ResultSet.get ⟨0, trivDb⟩ 1 :=
  (get_by_col_name_first_match ⟨0, trivDb⟩ "name"
      [namedCol "id", namedCol "name"]).1 1 (namedCol "name") rfl rfl
    (by
      intro j c2 hj hg
      have hj0 : j = 0 := Nat.lt_one_iff.mp hj
      subst hj0
      have hc2 : namedCol "id" = c2 := Option.some.inj hg
      subst hc2
      decide)

/-- C7: `SqliteDriver::start_prepare` accepts both a connection handle and a
transaction handle, dispatching on the concrete payload and preparing the
query against the underlying connection in both cases (the two dispatches
give identical results, and on success the produced statement carries the
payload's connection pointer); a handle of any other concrete type is a
panic, never a silent pass-through or a normal error. -/
theorem sqlite_start_prepare_dispatch (o : Sqlite.Sqlite3Oracle) (q : String)
    (h c s : Nat) :
    Sqlite.SqliteDriver.start_prepare o (.conn h) q
      = Sqlite.SqliteDriver.start_prepare o (.tx h) q ∧
    (Sqlite.has_nul q = false → o.prepare_rc h q = Sqlite.SQLITE_OK →
      Sqlite.SqliteDriver.start_prepare o (.conn h) q
        = .ok (.stmt (o.prepare_out h q) h)) ∧
    Sqlite.SqliteDriver.start_prepare o (.stmt c s) q
      = .fatal "Expect sqlite connection or tx" ∧
    Sqlite.SqliteDriver.start_prepare o (.resultSet c) q
      = .fatal "Expect sqlite connection or tx" ∧
    Sqlite.SqliteDriver.start_prepare o .other q
      = .fatal "Expect sqlite connection or tx" := by
  refine ⟨rfl, ?_, rfl, rfl, rfl⟩
  intro h1 h2
  simp [Sqlite.SqliteDriver.start_prepare,
    Sqlite.SqliteDriver.start_prepare.after_downcast, h1, h2]

/-- Witness for C7: a NUL-free query on a connection handle prepares
successfully. -/
theorem sqlite_start_prepare_dispatch_witness :
    Sqlite.SqliteDriver.start_prepare trivOracle (.conn 1) "SELECT 1"
      = .ok (.stmt (trivOracle.prepare_out 1 "SELECT 1") 1) :=
  (sqlite_start_prepare_dispatch trivOracle "SELECT 1" 1 2 3).2.1
    (by decide) rfl

/-- On a value bound through its textual form whose text has a NUL byte,
`bind_value` is exactly the `CString::new` failure. -/
theorem bind_value_nul (o : Sqlite.Sqlite3Oracle) (c_stmt offset : Nat)
    (v : Rinq.SqlValue) (h : Sqlite.textual_nul v = true) :
    Sqlite.bind_value o c_stmt offset v = .error Sqlite.nul_error := by
  cases v <;> simp [Sqlite.textual_nul] at h <;>
    simp [Sqlite.bind_value, h]

/-- If the value at index `i` fails `CString` conversion and every earlier
value binds with `SQLITE_OK`, the whole bind loop stops there with the
`CString` error. -/
theorem bind_values_from_first_nul (o : Sqlite.Sqlite3Oracle)
    (c_stmt c_handle : Nat) (values : List Rinq.SqlValue) :
    ∀ (off i : Nat) (v : Rinq.SqlValue),
      values.get? i = some v →
      Sqlite.textual_nul v = true →
      (∀ j w, j < i → values.get? j = some w →
        Sqlite.bind_value o c_stmt (off + j) w = .ok Sqlite.SQLITE_OK) →
      Sqlite.bind_values_from o c_stmt c_handle off values
        = .error Sqlite.nul_error := by
  induction values with
  | nil => intro off i v hv _ _; simp at hv
  | cons u rest ih =>
    intro off i v hv hnul hprev
    cases i with
    | zero =>
      have hu : u = v := Option.some.inj hv
      subst hu
      simp [Sqlite.bind_values_from, bind_value_nul o c_stmt off u hnul]
    | succ i =>
      have h0 : Sqlite.bind_value o c_stmt off u = .ok Sqlite.SQLITE_OK := by
        have := hprev 0 u (Nat.succ_pos i) rfl
        simpa using this
      have hrec := ih (off + 1) i v hv hnul (fun j w hj hg => by
        have hw := hprev (j + 1) w (Nat.succ_lt_succ hj) hg
        have hadd : off + (j + 1) = off + 1 + j := by omega
        rwa [hadd] at hw)
      simp [Sqlite.bind_values_from, h0, hrec]

/-- C10: whenever one of the bound parameter values is a `String`, `BigInt`
or `Decimal` whose textual form contains a NUL byte, and every value before
it binds successfully (binding is positional, value `j` to parameter
`j + 1`), `start_query` and `start_exec` both return the `CString` error —
no handle is produced and no panic occurs: binding stops at the first value
whose bind fails. -/
theorem sqlite_bind_nul_rejected (o : Sqlite.Sqlite3Oracle)
    (c_stmt c_handle : Nat) (values : List Rinq.SqlValue) (i : Nat)
    (v : Rinq.SqlValue)
    (hv : values.get? i = some v)
    (hnul : Sqlite.textual_nul v = true)
    (hprev : ∀ j w, j < i → values.get? j = some w →
      Sqlite.bind_value o c_stmt (j + 1) w = .ok Sqlite.SQLITE_OK) :
    Sqlite.SqliteDriver.start_query o (.stmt c_stmt c_handle) values
      = .err Sqlite.nul_error ∧
    Sqlite.SqliteDriver.start_exec o (.stmt c_stmt c_handle) values
      = .err Sqlite.nul_error := by
  have hb : Sqlite.bind_values o c_stmt c_handle values
      = .error Sqlite.nul_error := by
    apply bind_values_from_first_nul o c_stmt c_handle values 1 i v hv hnul
    intro j w hj hg
    have hw := hprev j w hj hg
    rwa [Nat.add_comm 1 j]
  constructor <;>
    simp [Sqlite.SqliteDriver.start_query, Sqlite.SqliteDriver.start_exec,
      Sqlite.bind_values, Sqlite.bind_values] at hb ⊢ <;>
    simp [hb]

/-- Witness for C10: a single bound `String` parameter containing a NUL byte
makes both `start_query` and `start_exec` fail without producing a handle. -/
theorem sqlite_bind_nul_rejected_witness :
    Sqlite.SqliteDriver.start_query trivOracle (.stmt 6 1)
        [Rinq.SqlValue.String "a\x00b"] = .err Sqlite.nul_error ∧
    Sqlite.SqliteDriver.start_exec trivOracle (.stmt 6 1)
        [Rinq.SqlValue.String "a\x00b"] = .err Sqlite.nul_error :=
  sqlite_bind_nul_rejected trivOracle 6 1 [Rinq.SqlValue.String "a\x00b"] 0
    (Rinq.SqlValue.String "a\x00b") rfl (by decide)
    (fun j w hj _ => absurd hj (Nat.not_lt_zero j))
